import Mathlib

/-!
Formal model of the wagiminator ATtiny13 ContinuityTester firmware.

The repository holds three firmware variants of the same continuity tester:

* `V0`  — the original sketch (1.2 MHz clock, `uint16_t tmillis`,
  `timeout = 30000`, no debounce, pin-change interrupt permanently enabled);
* `V10` — version v1.0 of `ContinuityTester.ino` (two 8-bit counters
  `t_in_50millis` / `t50millis`, `timeout_50ms = 200`,
  `debounce_timeout_50ms = 1`, pin-change interrupt armed only for sleep);
* `V11` — version v1.1 of `ContinuityTester.ino` (`uint16_t tmillis`,
  `TIMEOUT = 10000`, `DEBOUNCE = 50`, pin-change interrupt armed only
  for sleep).

Each variant is embedded as a state record holding the runtime-mutable
hardware state (counters, the OCIE0A/OCIE0B bits of TIMSK0, the BUZZER,
LED, REF and PROBE bits of PORTB, the PCIE bit of GIMSK, the OCR0A/OCR0B
compare registers, and a flag recording whether the CPU is in power-down
sleep), together with one transition function per interrupt service
routine and per main-loop phase.  A small-step interpreter `step` applies
hardware interrupt masking (a compare-match interrupt only fires when its
enable bit is set; in power-down sleep the timer is halted so only a
pin-change event has an effect) and `run` folds a list of events.
-/

/-- An externally visible event: a main-loop iteration observing the analog
comparator output `aco` (bit ACO of ACSR), a timer0 compare-match A tick,
a timer0 compare-match B tick, or a pin change on the probe pin. -/
inductive Event where
  | poll (aco : Bool)
  | tickA
  | tickB
  | pcint
deriving DecidableEq, Repr

namespace V11

/-- Sleep timer of v1.1: `#define TIMEOUT 10000` (milliseconds). -/
def TIMEOUT : Nat := 10000

/-- Buzzer debounce time of v1.1: `#define DEBOUNCE 50` (milliseconds). -/
def DEBOUNCE : Nat := 50

/-- Runtime-mutable machine state of firmware v1.1.  `tmillis` is the
`volatile uint16_t` millisecond counter (kept as a `Nat` below `2 ^ 16`,
with the wrap written explicitly in the increment). -/
structure State where
  tmillis : Nat
  ocie0a : Bool
  ocie0b : Bool
  buzzerPin : Bool
  led : Bool
  refPull : Bool
  probePull : Bool
  pcie : Bool
  asleep : Bool
  ocr0a : Nat
  ocr0b : Nat
deriving DecidableEq, Repr

/-- State after the setup section of `main` in v1.1: LED on, pull-ups on
REF and PROBE, `OCR0A = 127`, `OCR0B = 63`, compare-match A interrupt
enabled, pin-change interrupts not yet enabled (GIMSK is untouched). -/
def init : State :=
  { tmillis := 0, ocie0a := true, ocie0b := false, buzzerPin := false,
    led := true, refPull := true, probePull := true, pcie := false,
    asleep := false, ocr0a := 127, ocr0b := 63 }

/-- `ISR(PCINT0_vect)` of v1.1: `tmillis = 0;`. -/
def isrPCINT0 (s : State) : State :=
  { s with tmillis := 0 }

/-- `ISR(TIM0_COMPA_vect)` of v1.1: `PORTB &= ~(1<<BUZZER); tmillis++;`
(the increment wraps at the 16-bit width of `tmillis`). -/
def isrCOMPA (s : State) : State :=
  { s with buzzerPin := false, tmillis := (s.tmillis + 1) % 65536 }

/-- `ISR(TIM0_COMPB_vect)` of v1.1: `PORTB |= (1<<BUZZER);`. -/
def isrCOMPB (s : State) : State :=
  { s with buzzerPin := true }

/-- The continuity-sensing phase of the v1.1 main loop:
`if(ACSR & (1<<ACO)) { tmillis = 0; TIMSK0 |= (1<<OCIE0B); }
else if(tmillis > DEBOUNCE) TIMSK0 &= ~(1<<OCIE0B);`. -/
def sense (aco : Bool) (s : State) : State :=
  if aco then { s with tmillis := 0, ocie0b := true }
  else if s.tmillis > DEBOUNCE then { s with ocie0b := false }
  else s

/-- The state changes performed by the v1.1 sleep entry sequence up to and
including `sleep_mode()`: LED off, REF pull-up off, `GIMSK = (1<<PCIE)`,
CPU halted in power-down sleep. -/
def sleepEnter (s : State) : State :=
  { s with led := false, refPull := false, pcie := true, asleep := true }

/-- The idle-timeout phase of the v1.1 main loop:
`if(tmillis > TIMEOUT) { ... sleep_mode(); ... }`. -/
def sleepCheck (s : State) : State :=
  if s.tmillis > TIMEOUT then sleepEnter s else s

/-- One full iteration of the v1.1 `while(1)` loop body, given the
comparator reading `aco`. -/
def loopIter (aco : Bool) (s : State) : State :=
  sleepCheck (sense aco s)

/-- The code executed after `sleep_mode()` returns in v1.1:
`GIMSK = 0; PORTB |= (1<<REF); PORTB |= (1<<LED);` and the CPU leaves
power-down sleep. -/
def wakeResume (s : State) : State :=
  { s with pcie := false, refPull := true, led := true, asleep := false }

/-- Small-step semantics of v1.1.  While asleep the timer is halted and
the main loop is not running, so only a pin change has an effect: it runs
the pin-change ISR and then the resume code after `sleep_mode()`.  While
awake, a compare-match interrupt fires only if its TIMSK0 enable bit is
set, and a pin change fires only if PCIE is set. -/
def step (s : State) (e : Event) : State :=
  match e with
  | .poll aco => if s.asleep then s else loopIter aco s
  | .tickA => if s.asleep then s else if s.ocie0a then isrCOMPA s else s
  | .tickB => if s.asleep then s else if s.ocie0b then isrCOMPB s else s
  | .pcint =>
    if s.pcie then
      if s.asleep then wakeResume (isrPCINT0 s) else isrPCINT0 s
    else s

/-- Run a whole event trace from state `s`. -/
def run (s : State) : List Event → State
  | [] => s
  | e :: es => run (step s e) es

end V11

namespace V0

/-- Sleep timer of the original sketch: `const uint16_t timeout = 30000;`. -/
def timeout : Nat := 30000

/-- Runtime-mutable machine state of the original sketch.  `tmillis` is
the `volatile uint16_t` millisecond counter. -/
structure State where
  tmillis : Nat
  ocie0a : Bool
  ocie0b : Bool
  buzzerPin : Bool
  led : Bool
  refPull : Bool
  probePull : Bool
  pcie : Bool
  asleep : Bool
  ocr0a : Nat
  ocr0b : Nat
deriving DecidableEq, Repr

/-- State after the setup section of `main` in the original sketch: LED
on, pull-ups on REF and PROBE, `OCR0A = 149`, `OCR0B = 74`, compare-match
A interrupt enabled, and — unlike v1.0/v1.1 — `GIMSK = (1<<PCIE)` already
set, so the pin-change interrupt is permanently armed. -/
def init : State :=
  { tmillis := 0, ocie0a := true, ocie0b := false, buzzerPin := false,
    led := true, refPull := true, probePull := true, pcie := true,
    asleep := false, ocr0a := 149, ocr0b := 74 }

/-- `ISR (PCINT0_vect)` of the original sketch: `tmillis = 0;`. -/
def isrPCINT0 (s : State) : State :=
  { s with tmillis := 0 }

/-- `ISR(TIM0_COMPA_vect)` of the original sketch:
`PORTB &= ~(1<<BUZZER); tmillis++;` (16-bit wrap written explicitly). -/
def isrCOMPA (s : State) : State :=
  { s with buzzerPin := false, tmillis := (s.tmillis + 1) % 65536 }

/-- `ISR(TIM0_COMPB_vect)` of the original sketch: `PORTB |= (1<<BUZZER);`. -/
def isrCOMPB (s : State) : State :=
  { s with buzzerPin := true }

/-- The continuity-sensing phase of the original sketch's main loop:
`if (ACSR & (1<<ACO)) TIMSK0 |= (1<<OCIE0B); else TIMSK0 &= ~(1<<OCIE0B);`
— no debounce and no counter reset here. -/
def sense (aco : Bool) (s : State) : State :=
  if aco then { s with ocie0b := true } else { s with ocie0b := false }

/-- The state changes performed by the original sketch's sleep entry up to
and including `sleep_mode()`: LED off, REF pull-up off, CPU halted.
GIMSK is not touched (PCIE stays set permanently). -/
def sleepEnter (s : State) : State :=
  { s with led := false, refPull := false, asleep := true }

/-- The idle-timeout phase of the original sketch's main loop:
`if (tmillis > timeout) { ... sleep_mode(); ... }`. -/
def sleepCheck (s : State) : State :=
  if s.tmillis > timeout then sleepEnter s else s

/-- One full iteration of the original sketch's `while(1)` loop body. -/
def loopIter (aco : Bool) (s : State) : State :=
  sleepCheck (sense aco s)

/-- The code executed after `sleep_mode()` returns in the original
sketch: `PORTB |= (1<<REF); PORTB |= (1<<LED);` — GIMSK is not touched. -/
def wakeResume (s : State) : State :=
  { s with refPull := true, led := true, asleep := false }

/-- Small-step semantics of the original sketch (same interrupt masking
rules as for v1.1). -/
def step (s : State) (e : Event) : State :=
  match e with
  | .poll aco => if s.asleep then s else loopIter aco s
  | .tickA => if s.asleep then s else if s.ocie0a then isrCOMPA s else s
  | .tickB => if s.asleep then s else if s.ocie0b then isrCOMPB s else s
  | .pcint =>
    if s.pcie then
      if s.asleep then wakeResume (isrPCINT0 s) else isrPCINT0 s
    else s

/-- Run a whole event trace from state `s`. -/
def run (s : State) : List Event → State
  | [] => s
  | e :: es => run (step s e) es

end V0

namespace V10

/-- Sleep timer of v1.0: `const uint8_t timeout_50ms = 200;`
(200 units of 50 ms = 10 seconds). -/
def timeout_50ms : Nat := 200

/-- Debounce of v1.0: `static const uint8_t debounce_timeout_50ms = 1;`. -/
def debounce_timeout_50ms : Nat := 1

/-- Runtime-mutable machine state of firmware v1.0.  `t_in_50millis`
counts milliseconds within a 50 ms unit and `t50millis` counts 50 ms
units; both are `volatile uint8_t` (kept as `Nat`s with the 8-bit wrap
written explicitly in the increments). -/
structure State where
  t_in_50millis : Nat
  t50millis : Nat
  ocie0a : Bool
  ocie0b : Bool
  buzzerPin : Bool
  led : Bool
  refPull : Bool
  probePull : Bool
  pcie : Bool
  asleep : Bool
  ocr0a : Nat
  ocr0b : Nat
deriving DecidableEq, Repr

/-- State after the setup section of `main` in v1.0 (`OCR0A = 127`,
`OCR0B = 63`, GIMSK untouched, compare-match A interrupt enabled). -/
def init : State :=
  { t_in_50millis := 0, t50millis := 0, ocie0a := true, ocie0b := false,
    buzzerPin := false, led := true, refPull := true, probePull := true,
    pcie := false, asleep := false, ocr0a := 127, ocr0b := 63 }

/-- `ISR(PCINT0_vect)` of v1.0: `t_in_50millis = 0; t50millis = 0;`. -/
def isrPCINT0 (s : State) : State :=
  { s with t_in_50millis := 0, t50millis := 0 }

/-- `ISR(TIM0_COMPA_vect)` of v1.0: `PORTB &= ~(1<<BUZZER);
t_in_50millis++; if (t_in_50millis == 50) { t_in_50millis = 0;
t50millis++; }` (8-bit wraps written explicitly). -/
def isrCOMPA (s : State) : State :=
  let s1 := { s with buzzerPin := false,
                     t_in_50millis := (s.t_in_50millis + 1) % 256 }
  if s1.t_in_50millis = 50 then
    { s1 with t_in_50millis := 0, t50millis := (s1.t50millis + 1) % 256 }
  else s1

/-- `ISR(TIM0_COMPB_vect)` of v1.0: `PORTB |= (1<<BUZZER);`. -/
def isrCOMPB (s : State) : State :=
  { s with buzzerPin := true }

/-- The continuity-sensing phase of the v1.0 main loop:
`if (ACSR & (1<<ACO)) { t_in_50millis = 0; t50millis = 0;
TIMSK0 |= (1<<OCIE0B); } else { if (t50millis > debounce_timeout_50ms)
TIMSK0 &= ~(1<<OCIE0B); }`. -/
def sense (aco : Bool) (s : State) : State :=
  if aco then
    { s with t_in_50millis := 0, t50millis := 0, ocie0b := true }
  else if s.t50millis > debounce_timeout_50ms then { s with ocie0b := false }
  else s

/-- The state changes performed by the v1.0 sleep entry sequence up to
and including `sleep_mode()`: LED off, REF pull-up off,
`GIMSK = (1<<PCIE)`, CPU halted. -/
def sleepEnter (s : State) : State :=
  { s with led := false, refPull := false, pcie := true, asleep := true }

/-- The idle-timeout phase of the v1.0 main loop:
`if (t50millis > timeout_50ms) { ... sleep_mode(); ... }`. -/
def sleepCheck (s : State) : State :=
  if s.t50millis > timeout_50ms then sleepEnter s else s

/-- One full iteration of the v1.0 `while(1)` loop body. -/
def loopIter (aco : Bool) (s : State) : State :=
  sleepCheck (sense aco s)

/-- The code executed after `sleep_mode()` returns in v1.0:
`GIMSK &= ~(1<<PCIE); PORTB |= (1<<REF); PORTB |= (1<<LED);`. -/
def wakeResume (s : State) : State :=
  { s with pcie := false, refPull := true, led := true, asleep := false }

/-- Small-step semantics of v1.0 (same interrupt masking rules as for
v1.1). -/
def step (s : State) (e : Event) : State :=
  match e with
  | .poll aco => if s.asleep then s else loopIter aco s
  | .tickA => if s.asleep then s else if s.ocie0a then isrCOMPA s else s
  | .tickB => if s.asleep then s else if s.ocie0b then isrCOMPB s else s
  | .pcint =>
    if s.pcie then
      if s.asleep then wakeResume (isrPCINT0 s) else isrPCINT0 s
    else s

/-- Run a whole event trace from state `s`. -/
def run (s : State) : List Event → State
  | [] => s
  | e :: es => run (step s e) es

/-- Total millisecond count represented by the v1.0 counter pair. -/
def msCount (s : State) : Nat :=
  50 * s.t50millis + s.t_in_50millis

end V10

/-- State of the debounce automaton written from the specification text:
`connected` is the debounce-adjusted continuity state and `clock` the
millisecond clock it consults. -/
structure DebSpec where
  connected : Bool
  clock : Nat
deriving DecidableEq, Repr

/-- One step of the debounce automaton, following the specification's
words: a comparator-true reading resets the millisecond clock and
immediately connects (tone on); a comparator-false reading disconnects
only once the clock has exceeded the debounce interval; a millisecond
tick advances the clock (with its 16-bit wrap); the tone sub-tick leaves
it alone; a pin-change event resets the clock. -/
def debStep (d : DebSpec) : Event → DebSpec
  | .poll aco =>
    if aco then { connected := true, clock := 0 }
    else if d.clock > V11.DEBOUNCE then { d with connected := false }
    else d
  | .tickA => { d with clock := (d.clock + 1) % 65536 }
  | .tickB => d
  | .pcint => { d with clock := 0 }

/-- Fold of the debounce automaton over an event trace. -/
def debRun (d : DebSpec) : List Event → DebSpec
  | [] => d
  | e :: es => debRun (debStep d e) es

/-- While the v1.1 CPU is in power-down sleep, a trace without a pin
change leaves the state completely unchanged. -/
theorem v11_run_frozen_of_asleep (tr : List Event) :
    ∀ s : V11.State, s.asleep = true → Event.pcint ∉ tr →
    V11.run s tr = s := by
  induction tr with
  | nil => intro s _ _; rfl
  | cons e es ih =>
    intro s h hp
    have he : e ≠ Event.pcint := fun hc => hp (hc ▸ List.mem_cons_self e es)
    have hs : V11.step s e = s := by
      cases e with
      | pcint => exact absurd rfl he
      | poll aco => simp [V11.step, h]
      | tickA => simp [V11.step, h]
      | tickB => simp [V11.step, h]
    show V11.run (V11.step s e) es = s
    rw [hs]
    exact ih s h (fun hm => hp (List.mem_cons_of_mem e hm))

/-- While the original sketch's CPU is in power-down sleep, a trace
without a pin change leaves the state completely unchanged. -/
theorem v0_run_frozen_of_asleep (tr : List Event) :
    ∀ s : V0.State, s.asleep = true → Event.pcint ∉ tr →
    V0.run s tr = s := by
  induction tr with
  | nil => intro s _ _; rfl
  | cons e es ih =>
    intro s h hp
    have he : e ≠ Event.pcint := fun hc => hp (hc ▸ List.mem_cons_self e es)
    have hs : V0.step s e = s := by
      cases e with
      | pcint => exact absurd rfl he
      | poll aco => simp [V0.step, h]
      | tickA => simp [V0.step, h]
      | tickB => simp [V0.step, h]
    show V0.run (V0.step s e) es = s
    rw [hs]
    exact ih s h (fun hm => hp (List.mem_cons_of_mem e hm))

/-- While the v1.0 CPU is in power-down sleep, a trace without a pin
change leaves the state completely unchanged. -/
theorem v10_run_frozen_of_asleep (tr : List Event) :
    ∀ s : V10.State, s.asleep = true → Event.pcint ∉ tr →
    V10.run s tr = s := by
  induction tr with
  | nil => intro s _ _; rfl
  | cons e es ih =>
    intro s h hp
    have he : e ≠ Event.pcint := fun hc => hp (hc ▸ List.mem_cons_self e es)
    have hs : V10.step s e = s := by
      cases e with
      | pcint => exact absurd rfl he
      | poll aco => simp [V10.step, h]
      | tickA => simp [V10.step, h]
      | tickB => simp [V10.step, h]
    show V10.run (V10.step s e) es = s
    rw [hs]
    exact ih s h (fun hm => hp (List.mem_cons_of_mem e hm))

/-- No v1.1 transition ever touches the OCIE0A bit. -/
theorem v11_step_ocie0a (s : V11.State) (e : Event) :
    (V11.step s e).ocie0a = s.ocie0a := by
  cases e <;>
    simp only [V11.step, V11.loopIter, V11.sleepCheck, V11.sleepEnter,
      V11.sense, V11.isrCOMPA, V11.isrCOMPB, V11.isrPCINT0, V11.wakeResume] <;>
    split_ifs <;> rfl

/-- No v1.0 transition ever touches the OCIE0A bit. -/
theorem v10_step_ocie0a (s : V10.State) (e : Event) :
    (V10.step s e).ocie0a = s.ocie0a := by
  cases e <;>
    simp only [V10.step, V10.loopIter, V10.sleepCheck, V10.sleepEnter,
      V10.sense, V10.isrCOMPA, V10.isrCOMPB, V10.isrPCINT0, V10.wakeResume] <;>
    split_ifs <;> rfl

/-- Coupling between a v1.1 run and the debounce automaton: on any trace
without pin-change events that keeps the device awake, the OCIE0B bit
tracks the automaton's `connected` flag and `tmillis` its clock. -/
theorem V11.deb_refines (tr : List Event) :
    ∀ (s : V11.State) (d : DebSpec),
    s.asleep = false → s.ocie0a = true → Event.pcint ∉ tr →
    (V11.run s tr).asleep = false →
    s.ocie0b = d.connected → s.tmillis = d.clock →
    (V11.run s tr).ocie0b = (debRun d tr).connected ∧
    (V11.run s tr).tmillis = (debRun d tr).clock := by
  induction tr with
  | nil => intro s d _ _ _ _ hc ht; exact ⟨hc, ht⟩
  | cons e es ih =>
    intro s d hA hO hp hfin hc ht
    have hpe : e ≠ Event.pcint := fun hx => hp (hx ▸ List.mem_cons_self e es)
    have hpes : Event.pcint ∉ es := fun hm => hp (List.mem_cons_of_mem e hm)
    have hfin1 : (V11.run (V11.step s e) es).asleep = false := hfin
    have hA1 : (V11.step s e).asleep = false := by
      cases hcon : (V11.step s e).asleep with
      | false => rfl
      | true =>
        rw [v11_run_frozen_of_asleep es (V11.step s e) hcon hpes] at hfin1
        rw [hcon] at hfin1
        exact absurd hfin1 (by simp)
    have hO1 : (V11.step s e).ocie0a = true := by
      rw [v11_step_ocie0a]; exact hO
    have hrw : V11.run s (e :: es) = V11.run (V11.step s e) es := rfl
    have hdw : debRun d (e :: es) = debRun (debStep d e) es := rfl
    rw [hrw, hdw]
    cases e with
    | pcint => exact absurd rfl hpe
    | tickA =>
      have hs : V11.step s Event.tickA = V11.isrCOMPA s := by
        simp [V11.step, hA, hO]
      rw [hs] at hA1 hO1 ⊢
      exact ih (V11.isrCOMPA s) (debStep d Event.tickA) hA1 hO1 hpes
        (hs ▸ hfin1) (by simpa [V11.isrCOMPA, debStep] using hc)
        (by simp [V11.isrCOMPA, debStep, ht])
    | tickB =>
      have hbz : (V11.step s Event.tickB).ocie0b = s.ocie0b := by
        simp only [V11.step, hA]
        split_ifs <;> rfl
      have hbt : (V11.step s Event.tickB).tmillis = s.tmillis := by
        simp only [V11.step, hA]
        split_ifs <;> rfl
      exact ih (V11.step s Event.tickB) (debStep d Event.tickB)
        hA1 hO1 hpes hfin1 (by rw [hbz, hc]; rfl) (by rw [hbt, ht]; rfl)
    | poll aco =>
      have hnc : ¬ (V11.sense aco s).tmillis > V11.TIMEOUT := by
        intro hgt
        have hslept : (V11.step s (Event.poll aco)).asleep = true := by
          simp [V11.step, hA, V11.loopIter, V11.sleepCheck, hgt, V11.sleepEnter]
        rw [hslept] at hA1
        exact absurd hA1 (by simp)
      have hs : V11.step s (Event.poll aco) = V11.sense aco s := by
        simp [V11.step, hA, V11.loopIter, V11.sleepCheck, hnc]
      rw [hs] at hA1 hO1 ⊢
      cases aco with
      | true =>
        exact ih (V11.sense true s) (debStep d (Event.poll true)) hA1 hO1
          hpes (hs ▸ hfin1) (by simp [V11.sense, debStep])
          (by simp [V11.sense, debStep])

      | false =>
        by_cases hgt : s.tmillis > V11.DEBOUNCE
        · have hgt2 : d.clock > V11.DEBOUNCE := ht ▸ hgt
          exact ih (V11.sense false s) (debStep d (Event.poll false)) hA1 hO1
            hpes (hs ▸ hfin1) (by simp [V11.sense, debStep, hgt, hgt2])
            (by simp [V11.sense, debStep, hgt, hgt2, ht])
        · have hgt2 : ¬ d.clock > V11.DEBOUNCE := ht ▸ hgt
          exact ih (V11.sense false s) (debStep d (Event.poll false)) hA1 hO1
            hpes (hs ▸ hfin1) (by simp [V11.sense, debStep, hgt, hgt2, hc])
            (by simp [V11.sense, debStep, hgt, hgt2, ht])

/-- Closed form for a burst of compare-match A ticks in v1.1: starting
awake with OCIE0A set and an in-range counter, `n` ticks take `tmillis`
to `(tmillis + n) % 2 ^ 16`. -/
theorem v11_run_ticks (n : Nat) :
    ∀ s : V11.State, s.asleep = false → s.ocie0a = true →
    s.tmillis < 65536 →
    (V11.run s (List.replicate n Event.tickA)).tmillis =
      (s.tmillis + n) % 65536 := by
  induction n with
  | zero =>
    intro s _ _ hlt
    show s.tmillis = (s.tmillis + 0) % 65536
    omega
  | succ n ih =>
    intro s hA hO hlt
    have hstep : V11.step s Event.tickA = V11.isrCOMPA s := by
      simp [V11.step, hA, hO]
    have hrw : V11.run s (List.replicate (n + 1) Event.tickA) =
        V11.run (V11.isrCOMPA s) (List.replicate n Event.tickA) := by
      rw [List.replicate_succ]
      show V11.run (V11.step s Event.tickA) (List.replicate n Event.tickA) = _
      rw [hstep]
    rw [hrw]
    have h1 : (V11.isrCOMPA s).asleep = false := hA
    have h2 : (V11.isrCOMPA s).ocie0a = true := hO
    have h3 : (V11.isrCOMPA s).tmillis < 65536 := Nat.mod_lt _ (by omega)
    rw [ih (V11.isrCOMPA s) h1 h2 h3]
    show ((s.tmillis + 1) % 65536 + n) % 65536 = (s.tmillis + (n + 1)) % 65536
    omega

/-- Closed form for a burst of compare-match A ticks in the original
sketch. -/
theorem v0_run_ticks (n : Nat) :
    ∀ s : V0.State, s.asleep = false → s.ocie0a = true →
    s.tmillis < 65536 →
    (V0.run s (List.replicate n Event.tickA)).tmillis =
      (s.tmillis + n) % 65536 := by
  induction n with
  | zero =>
    intro s _ _ hlt
    show s.tmillis = (s.tmillis + 0) % 65536
    omega
  | succ n ih =>
    intro s hA hO hlt
    have hstep : V0.step s Event.tickA = V0.isrCOMPA s := by
      simp [V0.step, hA, hO]
    have hrw : V0.run s (List.replicate (n + 1) Event.tickA) =
        V0.run (V0.isrCOMPA s) (List.replicate n Event.tickA) := by
      rw [List.replicate_succ]
      show V0.run (V0.step s Event.tickA) (List.replicate n Event.tickA) = _
      rw [hstep]
    rw [hrw]
    have h3 : (V0.isrCOMPA s).tmillis < 65536 := Nat.mod_lt _ (by omega)
    rw [ih (V0.isrCOMPA s) hA hO h3]
    show ((s.tmillis + 1) % 65536 + n) % 65536 = (s.tmillis + (n + 1)) % 65536
    omega

/-- Closed form for a burst of compare-match A ticks in v1.0: starting
awake with OCIE0A set and in-range counters, after `n` ticks the
sub-counter holds `(t_in_50millis + n) % 50` and the 50 ms counter holds
`(t50millis + (t_in_50millis + n) / 50) % 256`. -/
theorem v10_run_ticks (n : Nat) :
    ∀ s : V10.State, s.asleep = false → s.ocie0a = true →
    s.t_in_50millis < 50 → s.t50millis < 256 →
    (V10.run s (List.replicate n Event.tickA)).t_in_50millis =
      (s.t_in_50millis + n) % 50 ∧
    (V10.run s (List.replicate n Event.tickA)).t50millis =
      (s.t50millis + (s.t_in_50millis + n) / 50) % 256 := by
  induction n with
  | zero =>
    intro s _ _ ha hb
    constructor
    · show s.t_in_50millis = (s.t_in_50millis + 0) % 50
      omega
    · show s.t50millis = (s.t50millis + (s.t_in_50millis + 0) / 50) % 256
      omega
  | succ n ih =>
    intro s hA hO ha hb
    have hstep : V10.step s Event.tickA = V10.isrCOMPA s := by
      simp [V10.step, hA, hO]
    have hrw : V10.run s (List.replicate (n + 1) Event.tickA) =
        V10.run (V10.isrCOMPA s) (List.replicate n Event.tickA) := by
      rw [List.replicate_succ]
      show V10.run (V10.step s Event.tickA) (List.replicate n Event.tickA) = _
      rw [hstep]
    rw [hrw]
    have ha1 : (s.t_in_50millis + 1) % 256 = s.t_in_50millis + 1 :=
      Nat.mod_eq_of_lt (by omega)
    by_cases h50 : s.t_in_50millis + 1 = 50
    · have hCo : V10.isrCOMPA s =
          { s with buzzerPin := false, t_in_50millis := 0,
                   t50millis := (s.t50millis + 1) % 256 } := by
        simp [V10.isrCOMPA, ha1, h50]
      rw [hCo]
      obtain ⟨ih1, ih2⟩ := ih
        { s with buzzerPin := false, t_in_50millis := 0,
                 t50millis := (s.t50millis + 1) % 256 }
        hA hO (by show (0 : Nat) < 50; omega)
        (by show (s.t50millis + 1) % 256 < 256; omega)
      refine ⟨?_, ?_⟩
      · rw [ih1]
        show (0 + n) % 50 = (s.t_in_50millis + (n + 1)) % 50
        omega
      · rw [ih2]
        show ((s.t50millis + 1) % 256 + (0 + n) / 50) % 256 =
          (s.t50millis + (s.t_in_50millis + (n + 1)) / 50) % 256
        omega
    · have hCo : V10.isrCOMPA s =
          { s with buzzerPin := false,
                   t_in_50millis := s.t_in_50millis + 1 } := by
        simp [V10.isrCOMPA, ha1, h50]
      rw [hCo]
      obtain ⟨ih1, ih2⟩ := ih
        { s with buzzerPin := false, t_in_50millis := s.t_in_50millis + 1 }
        hA hO (by show s.t_in_50millis + 1 < 50; omega) hb
      refine ⟨?_, ?_⟩
      · rw [ih1]
        show (s.t_in_50millis + 1 + n) % 50 = (s.t_in_50millis + (n + 1)) % 50
        omega
      · rw [ih2]
        show (s.t50millis + (s.t_in_50millis + 1 + n) / 50) % 256 =
          (s.t50millis + (s.t_in_50millis + (n + 1)) / 50) % 256
        omega

/-- Once the tone is disabled and the buzzer pin is low in v1.1, any
trace without a comparator-true poll keeps the OCIE0B bit clear and the
buzzer pin low. -/
theorem V11.run_low (tr : List Event) :
    ∀ s : V11.State, s.ocie0b = false → s.buzzerPin = false →
    Event.poll true ∉ tr →
    (V11.run s tr).ocie0b = false ∧ (V11.run s tr).buzzerPin = false := by
  induction tr with
  | nil => intro s h1 h2 _; exact ⟨h1, h2⟩
  | cons e es ih =>
    intro s h1 h2 hp
    have hpe : e ≠ Event.poll true := fun hx => hp (hx ▸ List.mem_cons_self e es)
    have hpes : Event.poll true ∉ es := fun hm => hp (List.mem_cons_of_mem e hm)
    have hstep : (V11.step s e).ocie0b = false ∧
        (V11.step s e).buzzerPin = false := by
      cases e with
      | poll aco =>
        cases aco with
        | true => exact absurd rfl hpe
        | false =>
          simp only [V11.step, V11.loopIter, V11.sleepCheck, V11.sleepEnter,
            V11.sense]
          split_ifs <;> simp_all
      | tickA =>
        simp only [V11.step, V11.isrCOMPA]
        split_ifs <;> simp_all
      | tickB =>
        simp only [V11.step, V11.isrCOMPB]
        split_ifs <;> simp_all
      | pcint =>
        simp only [V11.step, V11.wakeResume, V11.isrPCINT0]
        split_ifs <;> simp_all
    show (V11.run (V11.step s e) es).ocie0b = false ∧
      (V11.run (V11.step s e) es).buzzerPin = false
    exact ih (V11.step s e) hstep.1 hstep.2 hpes

/-- C1: the buzzer (the OCIE0B compare-match B interrupt enable bit) is
enabled iff the debounce-adjusted continuity state is connected.  In
v1.1, along any pin-change-free trace on which the device stays awake,
OCIE0B tracks the `connected` flag of the debounce automaton written
from the spec (a comparator-true reading enables immediately, a
comparator-false reading disables only once the millisecond counter has
exceeded the debounce threshold since its last reset).  In v1.0, one
poll yields OCIE0B set iff the reading was true or the buzzer was
already on and the 50 ms counter is still within the debounce
threshold. -/
theorem buzzer_enable_iff_debounced :
    (∀ (tr : List Event) (s : V11.State) (d : DebSpec),
      s.asleep = false → s.ocie0a = true → Event.pcint ∉ tr →
      (V11.run s tr).asleep = false →
      s.ocie0b = d.connected → s.tmillis = d.clock →
      (V11.run s tr).ocie0b = (debRun d tr).connected) ∧
    (∀ (aco : Bool) (s : V10.State),
      (V10.sense aco s).ocie0b = true ↔
        (aco = true ∨ (s.ocie0b = true ∧
          s.t50millis ≤ V10.debounce_timeout_50ms))) := by
  constructor
  · intro tr s d h1 h2 h3 h4 h5 h6
    exact (V11.deb_refines tr s d h1 h2 h3 h4 h5 h6).1
  · intro aco s
    cases aco with
    | true => simp [V10.sense]
    | false =>
      by_cases h : s.t50millis > V10.debounce_timeout_50ms
      · have hs : V10.sense false s = { s with ocie0b := false } := by
          simp [V10.sense, h]
        rw [hs]
        simp only [Bool.false_eq_true, false_or]
        constructor
        · intro hx
          exact absurd hx (by simp)
        · rintro ⟨hb, hle⟩
          exact absurd hle (by omega)
      · have hs : V10.sense false s = s := by
          simp [V10.sense, h]
        rw [hs]
        simp only [Bool.false_eq_true, false_or]
        constructor
        · intro hx
          exact ⟨hx, by omega⟩
        · rintro ⟨hb, _⟩
          exact hb

/-- Witness for C1 on a concrete trace: a true reading, one tick and a
false reading from the reset state, checked against the debounce
automaton. -/
theorem buzzer_enable_iff_debounced_witness :
    V11.init.asleep = false ∧ V11.init.ocie0a = true ∧
    Event.pcint ∉ [Event.poll true, Event.tickA, Event.poll false] ∧
    (V11.run V11.init [Event.poll true, Event.tickA, Event.poll false]).asleep
      = false ∧
    V11.init.ocie0b = (DebSpec.mk false 0).connected ∧
    V11.init.tmillis = (DebSpec.mk false 0).clock ∧
    (V11.run V11.init [Event.poll true, Event.tickA, Event.poll false]).ocie0b
      = (debRun (DebSpec.mk false 0)
          [Event.poll true, Event.tickA, Event.poll false]).connected :=
  ⟨rfl, rfl, by decide, by decide, rfl, rfl,
    buzzer_enable_iff_debounced.1
      [Event.poll true, Event.tickA, Event.poll false]
      V11.init (DebSpec.mk false 0) rfl rfl (by decide) (by decide) rfl rfl⟩

/-- C2 counterexample: at `tmillis = 65535` (the 16-bit maximum, with the
v1.1 device awake and OCIE0A set) a compare-match A tick wraps the
counter to 0; it does not increase it by exactly one. -/
theorem millis_tick_wrap_counterexample :
    (V11.step (V11.State.mk 65535 true false false true true true
        false false 127 63) Event.tickA).tmillis = 0 ∧
    ¬ (V11.step (V11.State.mk 65535 true false false true true true
        false false 127 63) Event.tickA).tmillis =
      (V11.State.mk 65535 true false false true true true
        false false 127 63).tmillis + 1 := by
  decide

/-- C2 (amended): the millisecond counter is reset to zero on every
occasion continuity is detected — by a comparator-true poll of the v1.1
main loop and by the pin-change ISR of v1.1 and of the original sketch —
a comparator-false poll and the compare-match B handler leave it
unchanged, and a compare-match A tick increases it by exactly one modulo
`2 ^ 16` (the counter's 16-bit width). -/
theorem millis_reset_and_tick :
    (∀ s : V11.State, (V11.sense true s).tmillis = 0) ∧
    (∀ s : V11.State, (V11.isrPCINT0 s).tmillis = 0) ∧
    (∀ s : V11.State, (V11.isrCOMPA s).tmillis = (s.tmillis + 1) % 65536) ∧
    (∀ s : V11.State, (V11.sense false s).tmillis = s.tmillis) ∧
    (∀ s : V11.State, (V11.isrCOMPB s).tmillis = s.tmillis) ∧
    (∀ s : V0.State, (V0.isrPCINT0 s).tmillis = 0) ∧
    (∀ s : V0.State, (V0.isrCOMPA s).tmillis = (s.tmillis + 1) % 65536) := by
  refine ⟨fun s => rfl, fun s => rfl, fun s => rfl, ?_, fun s => rfl,
    fun s => rfl, fun s => rfl⟩
  intro s
  simp only [V11.sense]
  split_ifs <;> simp_all

/-- The v1.1 sensing phase never touches the sleep flag. -/
theorem v11_sense_asleep (aco : Bool) (s : V11.State) :
    (V11.sense aco s).asleep = s.asleep := by
  simp only [V11.sense]
  split_ifs <;> rfl

/-- A comparator-false v1.1 poll leaves the counter alone. -/
theorem V11.sense_false_tmillis (s : V11.State) :
    (V11.sense false s).tmillis = s.tmillis := by
  simp only [V11.sense]
  split_ifs <;> simp_all

/-- The v1.1 sleep check fires exactly when the counter exceeds the
timeout. -/
theorem v11_sleepCheck_asleep (t : V11.State) (h : t.asleep = false) :
    ((V11.sleepCheck t).asleep = true ↔ t.tmillis > V11.TIMEOUT) := by
  simp only [V11.sleepCheck, V11.sleepEnter]
  split_ifs with hgt
  · simp [hgt]
  · simp [h, hgt]

/-- The original sketch's sensing phase never touches the sleep flag. -/
theorem v0_sense_asleep (aco : Bool) (s : V0.State) :
    (V0.sense aco s).asleep = s.asleep := by
  cases aco <;> rfl

/-- The original sketch's sensing phase never touches the counter. -/
theorem V0.sense_tmillis (aco : Bool) (s : V0.State) :
    (V0.sense aco s).tmillis = s.tmillis := by
  cases aco <;> rfl

/-- The original sketch's sleep check fires exactly when the counter
exceeds the timeout. -/
theorem v0_sleepCheck_asleep (t : V0.State) (h : t.asleep = false) :
    ((V0.sleepCheck t).asleep = true ↔ t.tmillis > V0.timeout) := by
  simp only [V0.sleepCheck, V0.sleepEnter]
  split_ifs with hgt
  · simp [hgt]
  · simp [h, hgt]

/-- The v1.0 sensing phase never touches the sleep flag. -/
theorem v10_sense_asleep (aco : Bool) (s : V10.State) :
    (V10.sense aco s).asleep = s.asleep := by
  simp only [V10.sense]
  split_ifs <;> rfl

/-- A comparator-false v1.0 poll leaves the 50 ms counter alone. -/
theorem V10.sense_false_t50 (s : V10.State) :
    (V10.sense false s).t50millis = s.t50millis := by
  simp only [V10.sense]
  split_ifs <;> simp_all

/-- The v1.0 sleep check fires exactly when the 50 ms counter exceeds
the timeout. -/
theorem v10_sleepCheck_asleep (t : V10.State) (h : t.asleep = false) :
    ((V10.sleepCheck t).asleep = true ↔ t.t50millis > V10.timeout_50ms) := by
  simp only [V10.sleepCheck, V10.sleepEnter]
  split_ifs with hgt
  · simp [hgt]
  · simp [h, hgt]

/-- C3: each variant enters sleep exactly when its counter has exceeded
the configured timeout at the loop's idle check (in v1.1 and v1.0 a
comparator-true reading resets the counter first, so sleep requires a
false reading; the original sketch's poll never resets the counter); the
sleep-entry state has the LED off and the REF pull-up disabled; and
while asleep a trace without a pin-change event changes nothing at all —
in particular no buzzer or LED change occurs until a wake event. -/
theorem sleep_iff_timeout :
    (∀ (aco : Bool) (s : V11.State), s.asleep = false →
      ((V11.loopIter aco s).asleep = true ↔
        (aco = false ∧ s.tmillis > V11.TIMEOUT))) ∧
    (∀ (aco : Bool) (s : V11.State), s.asleep = false →
      (V11.loopIter aco s).asleep = true →
      (V11.loopIter aco s).led = false ∧
      (V11.loopIter aco s).refPull = false) ∧
    (∀ (tr : List Event) (s : V11.State), s.asleep = true →
      Event.pcint ∉ tr → V11.run s tr = s) ∧
    (∀ (aco : Bool) (s : V0.State), s.asleep = false →
      ((V0.loopIter aco s).asleep = true ↔ s.tmillis > V0.timeout)) ∧
    (∀ (tr : List Event) (s : V0.State), s.asleep = true →
      Event.pcint ∉ tr → V0.run s tr = s) ∧
    (∀ (aco : Bool) (s : V10.State), s.asleep = false →
      ((V10.loopIter aco s).asleep = true ↔
        (aco = false ∧ s.t50millis > V10.timeout_50ms))) ∧
    (∀ (tr : List Event) (s : V10.State), s.asleep = true →
      Event.pcint ∉ tr → V10.run s tr = s) := by
  refine ⟨?_, ?_, ?_, ?_, ?_, ?_, ?_⟩
  · intro aco s hA
    have hAs : (V11.sense aco s).asleep = false := by
      rw [v11_sense_asleep]; exact hA
    rw [show V11.loopIter aco s = V11.sleepCheck (V11.sense aco s) from rfl,
      v11_sleepCheck_asleep _ hAs]
    cases aco with
    | true =>
      show (0 : Nat) > V11.TIMEOUT ↔ _
      simp [V11.TIMEOUT]
    | false =>
      rw [V11.sense_false_tmillis]
      simp
  · intro aco s hA hSl
    have hAs : (V11.sense aco s).asleep = false := by
      rw [v11_sense_asleep]; exact hA
    have hgt : (V11.sense aco s).tmillis > V11.TIMEOUT :=
      (v11_sleepCheck_asleep _ hAs).1 hSl
    have hrw : V11.loopIter aco s = V11.sleepEnter (V11.sense aco s) := by
      simp [V11.loopIter, V11.sleepCheck, hgt]
    rw [hrw]
    exact ⟨rfl, rfl⟩
  · exact fun tr s h hp => v11_run_frozen_of_asleep tr s h hp
  · intro aco s hA
    have hAs : (V0.sense aco s).asleep = false := by
      rw [v0_sense_asleep]; exact hA
    rw [show V0.loopIter aco s = V0.sleepCheck (V0.sense aco s) from rfl,
      v0_sleepCheck_asleep _ hAs, V0.sense_tmillis]
  · exact fun tr s h hp => v0_run_frozen_of_asleep tr s h hp
  · intro aco s hA
    have hAs : (V10.sense aco s).asleep = false := by
      rw [v10_sense_asleep]; exact hA
    rw [show V10.loopIter aco s = V10.sleepCheck (V10.sense aco s) from rfl,
      v10_sleepCheck_asleep _ hAs]
    cases aco with
    | true =>
      show (0 : Nat) > V10.timeout_50ms ↔ _
      simp [V10.timeout_50ms]
    | false =>
      rw [V10.sense_false_t50]
      simp
  · exact fun tr s h hp => v10_run_frozen_of_asleep tr s h hp

/-- Witness for C3 at concrete states: an awake v1.1 state with
`tmillis = 10001` sleeps on a false reading, and a sleeping state is
unchanged by a tick-only trace. -/
theorem sleep_iff_timeout_witness :
    (V11.State.mk 10001 true false false true true true false false
        127 63).asleep = false ∧
    ((V11.loopIter false (V11.State.mk 10001 true false false true true
        true false false 127 63)).asleep = true ↔
      (false = false ∧ 10001 > V11.TIMEOUT)) ∧
    (V11.State.mk 0 true false false false false true true true
        127 63).asleep = true ∧
    Event.pcint ∉ [Event.tickA, Event.tickB] ∧
    V11.run (V11.State.mk 0 true false false false false true true true
        127 63) [Event.tickA, Event.tickB] =
      V11.State.mk 0 true false false false false true true true 127 63 :=
  ⟨rfl,
    sleep_iff_timeout.1 false
      (V11.State.mk 10001 true false false true true true false false 127 63)
      rfl,
    rfl, by decide,
    sleep_iff_timeout.2.2.1 [Event.tickA, Event.tickB]
      (V11.State.mk 0 true false false false false true true true 127 63)
      rfl (by decide)⟩

/-- C4 counterexample: at the 16-bit maximum the v1.1 compare-match A
handler takes the millisecond count to 0, not to its value plus one. -/
theorem compa_wrap_counterexample :
    (V11.isrCOMPA (V11.State.mk 65535 true true true true true true
        false false 127 63)).tmillis = 0 ∧
    ¬ (V11.isrCOMPA (V11.State.mk 65535 true true true true true true
        false false 127 63)).tmillis =
      (V11.State.mk 65535 true true true true true true
        false false 127 63).tmillis + 1 := by
  decide

/-- C4 (amended): every execution of the compare-match A handler forces
the buzzer pin low and advances the millisecond count by exactly one
modulo the counter's width — and does nothing else, regardless of the
tone-enable bit.  In v1.1 and in the original sketch this is the whole
handler as a record equation (wrap at `2 ^ 16`); in v1.0 the total
millisecond count `50 * t50millis + t_in_50millis` advances by one
modulo `12800 = 50 * 2 ^ 8` and every field other than the buzzer pin
and the two counters is untouched. -/
theorem compa_two_effects :
    (∀ s : V11.State, V11.isrCOMPA s =
      { s with buzzerPin := false, tmillis := (s.tmillis + 1) % 65536 }) ∧
    (∀ s : V0.State, V0.isrCOMPA s =
      { s with buzzerPin := false, tmillis := (s.tmillis + 1) % 65536 }) ∧
    (∀ s : V10.State, s.t_in_50millis < 50 → s.t50millis < 256 →
      ((V10.isrCOMPA s).buzzerPin = false ∧
       V10.msCount (V10.isrCOMPA s) = (V10.msCount s + 1) % 12800 ∧
       (V10.isrCOMPA s).ocie0a = s.ocie0a ∧
       (V10.isrCOMPA s).ocie0b = s.ocie0b ∧
       (V10.isrCOMPA s).led = s.led ∧
       (V10.isrCOMPA s).refPull = s.refPull ∧
       (V10.isrCOMPA s).probePull = s.probePull ∧
       (V10.isrCOMPA s).pcie = s.pcie ∧
       (V10.isrCOMPA s).asleep = s.asleep ∧
       (V10.isrCOMPA s).ocr0a = s.ocr0a ∧
       (V10.isrCOMPA s).ocr0b = s.ocr0b)) := by
  refine ⟨fun s => rfl, fun s => rfl, ?_⟩
  intro s ha hb
  have ha1 : (s.t_in_50millis + 1) % 256 = s.t_in_50millis + 1 :=
    Nat.mod_eq_of_lt (by omega)
  by_cases h50 : s.t_in_50millis + 1 = 50
  · have hCo : V10.isrCOMPA s =
        { s with buzzerPin := false, t_in_50millis := 0,
                 t50millis := (s.t50millis + 1) % 256 } := by
      simp [V10.isrCOMPA, ha1, h50]
    rw [hCo]
    refine ⟨rfl, ?_, rfl, rfl, rfl, rfl, rfl, rfl, rfl, rfl, rfl⟩
    show 50 * ((s.t50millis + 1) % 256) + 0 =
      (50 * s.t50millis + s.t_in_50millis + 1) % 12800
    omega
  · have hCo : V10.isrCOMPA s =
        { s with buzzerPin := false,
                 t_in_50millis := s.t_in_50millis + 1 } := by
      simp [V10.isrCOMPA, ha1, h50]
    rw [hCo]
    refine ⟨rfl, ?_, rfl, rfl, rfl, rfl, rfl, rfl, rfl, rfl, rfl⟩
    show 50 * s.t50millis + (s.t_in_50millis + 1) =
      (50 * s.t50millis + s.t_in_50millis + 1) % 12800
    omega

/-- Witness for C4's v1.0 part at a concrete in-range state (one tick
away from a 50 ms rollover). -/
theorem compa_two_effects_witness :
    (V10.State.mk 49 3 true false true true true true false false
        127 63).t_in_50millis < 50 ∧
    (V10.State.mk 49 3 true false true true true true false false
        127 63).t50millis < 256 ∧
    V10.msCount (V10.isrCOMPA (V10.State.mk 49 3 true false true true
        true true false false 127 63)) =
      (V10.msCount (V10.State.mk 49 3 true false true true true true
        false false 127 63) + 1) % 12800 :=
  ⟨by decide, by decide,
    (compa_two_effects.2.2
      (V10.State.mk 49 3 true false true true true true false false 127 63)
      (by decide) (by decide)).2.1⟩

/-- C5: tone switching touches only the OCIE0B enable bit — the v1.1
sensing phase changes neither compare register nor any output pin —
the compare-match B handler's only effect (in every variant) is driving
the buzzer pin high, and once the tone is disabled the compare-match A
low-forcing still runs: after one tick the buzzer pin is low and stays
low on any further trace without a comparator-true reading. -/
theorem tone_gating_only :
    (∀ (aco : Bool) (s : V11.State),
      (V11.sense aco s).ocr0a = s.ocr0a ∧
      (V11.sense aco s).ocr0b = s.ocr0b ∧
      (V11.sense aco s).buzzerPin = s.buzzerPin ∧
      (V11.sense aco s).led = s.led ∧
      (V11.sense aco s).refPull = s.refPull ∧
      (V11.sense aco s).probePull = s.probePull ∧
      (V11.sense aco s).pcie = s.pcie ∧
      (V11.sense aco s).asleep = s.asleep ∧
      (V11.sense aco s).ocie0a = s.ocie0a) ∧
    (∀ s : V11.State, V11.isrCOMPB s = { s with buzzerPin := true }) ∧
    (∀ s : V0.State, V0.isrCOMPB s = { s with buzzerPin := true }) ∧
    (∀ s : V10.State, V10.isrCOMPB s = { s with buzzerPin := true }) ∧
    (∀ (tr : List Event) (s : V11.State),
      s.asleep = false → s.ocie0a = true → s.ocie0b = false →
      Event.poll true ∉ tr →
      (V11.run (V11.step s Event.tickA) tr).buzzerPin = false) := by
  refine ⟨?_, fun s => rfl, fun s => rfl, fun s => rfl, ?_⟩
  · intro aco s
    simp only [V11.sense]
    split_ifs <;>
      exact ⟨rfl, rfl, rfl, rfl, rfl, rfl, rfl, rfl, rfl⟩
  · intro tr s hA hO hB hp
    have hstep : V11.step s Event.tickA = V11.isrCOMPA s := by
      simp [V11.step, hA, hO]
    rw [hstep]
    exact (V11.run_low tr (V11.isrCOMPA s) hB rfl hp).2

/-- Witness for C5's last part: from a concrete awake state with the
tone just disabled and the buzzer pin still high, one tick plus a
poll-false/tick-B trace leaves the buzzer pin low. -/
theorem tone_gating_only_witness :
    (V11.State.mk 60 true false true true true true false false
        127 63).asleep = false ∧
    (V11.State.mk 60 true false true true true true false false
        127 63).ocie0a = true ∧
    (V11.State.mk 60 true false true true true true false false
        127 63).ocie0b = false ∧
    Event.poll true ∉ [Event.poll false, Event.tickB, Event.tickA] ∧
    (V11.run (V11.step (V11.State.mk 60 true false true true true true
        false false 127 63) Event.tickA)
      [Event.poll false, Event.tickB, Event.tickA]).buzzerPin = false :=
  ⟨rfl, rfl, rfl, by decide,
    tone_gating_only.2.2.2.2 [Event.poll false, Event.tickB, Event.tickA]
      (V11.State.mk 60 true false true true true true false false 127 63)
      rfl rfl rfl (by decide)⟩

/-- C6: for every sleep entry followed by a wake event, the wake path
restores exactly what the sleep entry changed.  Starting from a
pre-sleep state (awake, LED lit, REF pull-up active, buzzer already
debounced off, counter beyond the timeout), a comparator-false loop
iteration enters sleep and a subsequent pin change returns the device to
precisely the pre-sleep state with the counter reset to zero — LED
re-lit, pull-up re-enabled, every other field unchanged, and the device
awake again for the next loop iteration. -/
theorem wake_restores_presleep :
    (∀ s : V11.State,
      s.led = true → s.refPull = true → s.pcie = false → s.asleep = false →
      s.ocie0b = false → s.tmillis > V11.TIMEOUT →
      V11.step (V11.step s (Event.poll false)) Event.pcint =
        { s with tmillis := 0 }) ∧
    (∀ s : V0.State,
      s.led = true → s.refPull = true → s.pcie = true → s.asleep = false →
      s.ocie0b = false → s.tmillis > V0.timeout →
      V0.step (V0.step s (Event.poll false)) Event.pcint =
        { s with tmillis := 0 }) ∧
    (∀ s : V10.State,
      s.led = true → s.refPull = true → s.pcie = false → s.asleep = false →
      s.ocie0b = false → s.t50millis > V10.timeout_50ms →
      V10.step (V10.step s (Event.poll false)) Event.pcint =
        { s with t_in_50millis := 0, t50millis := 0 }) := by
  refine ⟨?_, ?_, ?_⟩
  · intro s h1 h2 h3 h4 h5 h6
    have h50 : s.tmillis > V11.DEBOUNCE := by
      have h6b : s.tmillis > 10000 := h6
      show s.tmillis > 50
      omega
    have hsense : V11.sense false s = s := by
      have hx : V11.sense false s = { s with ocie0b := false } := by
        simp [V11.sense, h50]
      rw [hx]
      obtain ⟨tm, oa, ob, bz, ld, rp, pp, pc, sl, oca, ocb⟩ := s
      simp_all
    have hpoll : V11.step s (Event.poll false) = V11.sleepEnter s := by
      simp [V11.step, h4, V11.loopIter, hsense, V11.sleepCheck, h6]
    have hwake : V11.step (V11.sleepEnter s) Event.pcint =
        V11.wakeResume (V11.isrPCINT0 (V11.sleepEnter s)) := by
      simp [V11.step, V11.sleepEnter]
    rw [hpoll, hwake]
    obtain ⟨tm, oa, ob, bz, ld, rp, pp, pc, sl, oca, ocb⟩ := s
    simp_all [V11.wakeResume, V11.isrPCINT0, V11.sleepEnter]
  · intro s h1 h2 h3 h4 h5 h6
    have hsense : V0.sense false s = s := by
      have hx : V0.sense false s = { s with ocie0b := false } := by
        simp [V0.sense]
      rw [hx]
      obtain ⟨tm, oa, ob, bz, ld, rp, pp, pc, sl, oca, ocb⟩ := s
      simp_all
    have hpoll : V0.step s (Event.poll false) = V0.sleepEnter s := by
      simp [V0.step, h4, V0.loopIter, hsense, V0.sleepCheck, h6]
    have hwake : V0.step (V0.sleepEnter s) Event.pcint =
        V0.wakeResume (V0.isrPCINT0 (V0.sleepEnter s)) := by
      simp [V0.step, V0.sleepEnter, h3]
    rw [hpoll, hwake]
    obtain ⟨tm, oa, ob, bz, ld, rp, pp, pc, sl, oca, ocb⟩ := s
    simp_all [V0.wakeResume, V0.isrPCINT0, V0.sleepEnter]
  · intro s h1 h2 h3 h4 h5 h6
    have h50 : s.t50millis > V10.debounce_timeout_50ms := by
      have h6b : s.t50millis > 200 := h6
      show s.t50millis > 1
      omega
    have hsense : V10.sense false s = s := by
      have hx : V10.sense false s = { s with ocie0b := false } := by
        simp [V10.sense, h50]
      rw [hx]
      obtain ⟨ti, t5, oa, ob, bz, ld, rp, pp, pc, sl, oca, ocb⟩ := s
      simp_all
    have hpoll : V10.step s (Event.poll false) = V10.sleepEnter s := by
      simp [V10.step, h4, V10.loopIter, hsense, V10.sleepCheck, h6]
    have hwake : V10.step (V10.sleepEnter s) Event.pcint =
        V10.wakeResume (V10.isrPCINT0 (V10.sleepEnter s)) := by
      simp [V10.step, V10.sleepEnter]
    rw [hpoll, hwake]
    obtain ⟨ti, t5, oa, ob, bz, ld, rp, pp, pc, sl, oca, ocb⟩ := s
    simp_all [V10.wakeResume, V10.isrPCINT0, V10.sleepEnter]

/-- Witness for C6 at a concrete v1.1 pre-sleep state with
`tmillis = 10001`. -/
theorem wake_restores_presleep_witness :
    (V11.State.mk 10001 true false false true true true false false
        127 63).led = true ∧
    (V11.State.mk 10001 true false false true true true false false
        127 63).refPull = true ∧
    (V11.State.mk 10001 true false false true true true false false
        127 63).pcie = false ∧
    (V11.State.mk 10001 true false false true true true false false
        127 63).asleep = false ∧
    (V11.State.mk 10001 true false false true true true false false
        127 63).ocie0b = false ∧
    (V11.State.mk 10001 true false false true true true false false
        127 63).tmillis > V11.TIMEOUT ∧
    V11.step (V11.step (V11.State.mk 10001 true false false true true
        true false false 127 63) (Event.poll false)) Event.pcint =
      { V11.State.mk 10001 true false false true true true false false
          127 63 with tmillis := 0 } :=
  ⟨rfl, rfl, rfl, rfl, rfl, by decide,
    wake_restores_presleep.1
      (V11.State.mk 10001 true false false true true true false false 127 63)
      rfl rfl rfl rfl rfl (by decide)⟩

/-- C7: in every variant, the pin-change ISR resets the millisecond
counter(s) to zero and leaves every other field — output pins,
interrupt-enable bits, timer compare registers, sleep flag — unchanged. -/
theorem pcint_resets_only :
    (∀ s : V11.State, (V11.isrPCINT0 s).tmillis = 0 ∧
      (V11.isrPCINT0 s).ocie0a = s.ocie0a ∧
      (V11.isrPCINT0 s).ocie0b = s.ocie0b ∧
      (V11.isrPCINT0 s).buzzerPin = s.buzzerPin ∧
      (V11.isrPCINT0 s).led = s.led ∧
      (V11.isrPCINT0 s).refPull = s.refPull ∧
      (V11.isrPCINT0 s).probePull = s.probePull ∧
      (V11.isrPCINT0 s).pcie = s.pcie ∧
      (V11.isrPCINT0 s).asleep = s.asleep ∧
      (V11.isrPCINT0 s).ocr0a = s.ocr0a ∧
      (V11.isrPCINT0 s).ocr0b = s.ocr0b) ∧
    (∀ s : V0.State, (V0.isrPCINT0 s).tmillis = 0 ∧
      (V0.isrPCINT0 s).ocie0a = s.ocie0a ∧
      (V0.isrPCINT0 s).ocie0b = s.ocie0b ∧
      (V0.isrPCINT0 s).buzzerPin = s.buzzerPin ∧
      (V0.isrPCINT0 s).led = s.led ∧
      (V0.isrPCINT0 s).refPull = s.refPull ∧
      (V0.isrPCINT0 s).probePull = s.probePull ∧
      (V0.isrPCINT0 s).pcie = s.pcie ∧
      (V0.isrPCINT0 s).asleep = s.asleep ∧
      (V0.isrPCINT0 s).ocr0a = s.ocr0a ∧
      (V0.isrPCINT0 s).ocr0b = s.ocr0b) ∧
    (∀ s : V10.State, (V10.isrPCINT0 s).t_in_50millis = 0 ∧
      (V10.isrPCINT0 s).t50millis = 0 ∧
      (V10.isrPCINT0 s).ocie0a = s.ocie0a ∧
      (V10.isrPCINT0 s).ocie0b = s.ocie0b ∧
      (V10.isrPCINT0 s).buzzerPin = s.buzzerPin ∧
      (V10.isrPCINT0 s).led = s.led ∧
      (V10.isrPCINT0 s).refPull = s.refPull ∧
      (V10.isrPCINT0 s).probePull = s.probePull ∧
      (V10.isrPCINT0 s).pcie = s.pcie ∧
      (V10.isrPCINT0 s).asleep = s.asleep ∧
      (V10.isrPCINT0 s).ocr0a = s.ocr0a ∧
      (V10.isrPCINT0 s).ocr0b = s.ocr0b) :=
  ⟨fun _ => ⟨rfl, rfl, rfl, rfl, rfl, rfl, rfl, rfl, rfl, rfl, rfl⟩,
   fun _ => ⟨rfl, rfl, rfl, rfl, rfl, rfl, rfl, rfl, rfl, rfl, rfl⟩,
   fun _ => ⟨rfl, rfl, rfl, rfl, rfl, rfl, rfl, rfl, rfl, rfl, rfl, rfl⟩⟩

/-- C8: every variant's timeout constant is strictly below the maximum
value its sleep-comparison counter can represent, and from the zeroed
counter a pure tick burst makes the sleep condition true while the
counter still equals its unwrapped tick (or 50 ms unit) count. -/
theorem timeout_within_counter_range :
    V0.timeout < 65535 ∧ V10.timeout_50ms < 255 ∧ V11.TIMEOUT < 65535 ∧
    (∃ n, n < 65536 ∧
      (V11.run V11.init (List.replicate n Event.tickA)).tmillis = n ∧
      (V11.run V11.init (List.replicate n Event.tickA)).tmillis >
        V11.TIMEOUT) ∧
    (∃ n, n < 65536 ∧
      (V0.run V0.init (List.replicate n Event.tickA)).tmillis = n ∧
      (V0.run V0.init (List.replicate n Event.tickA)).tmillis >
        V0.timeout) ∧
    (∃ n, n / 50 < 256 ∧
      (V10.run V10.init (List.replicate n Event.tickA)).t50millis = n / 50 ∧
      (V10.run V10.init (List.replicate n Event.tickA)).t50millis >
        V10.timeout_50ms) := by
  refine ⟨by decide, by decide, by decide, ?_, ?_, ?_⟩
  · have h := v11_run_ticks 10001 V11.init rfl rfl (by decide)
    exact ⟨10001, by omega, by rw [h]; decide, by rw [h]; decide⟩
  · have h := v0_run_ticks 30001 V0.init rfl rfl (by decide)
    exact ⟨30001, by omega, by rw [h]; decide, by rw [h]; decide⟩
  · have h := (v10_run_ticks 10050 V10.init rfl rfl (by decide)
      (by decide)).2
    exact ⟨10050, by decide, by rw [h]; decide, by rw [h]; decide⟩

/-- A comparator-true v1.1 loop iteration in one equation: it resets the
counter, sets OCIE0B, and never sleeps (the freshly reset counter cannot
exceed the timeout). -/
theorem v11_loopIter_true (s : V11.State) :
    V11.loopIter true s = { s with tmillis := 0, ocie0b := true } := by
  show V11.sleepCheck { s with tmillis := 0, ocie0b := true } = _
  simp only [V11.sleepCheck]
  split_ifs with hgt
  · exact absurd hgt (by decide)
  · rfl

/-- A comparator-true v1.0 loop iteration in one equation. -/
theorem v10_loopIter_true (s : V10.State) :
    V10.loopIter true s =
      { s with t_in_50millis := 0, t50millis := 0, ocie0b := true } := by
  show V10.sleepCheck
    { s with t_in_50millis := 0, t50millis := 0, ocie0b := true } = _
  simp only [V10.sleepCheck]
  split_ifs with hgt
  · exact absurd hgt (by decide)
  · rfl

/-- C9: a loop iteration that reads the comparator true while the buzzer
enable bit is already set only resets the millisecond counter(s) — the
resulting state equals the old state with the counter(s) zeroed — and
repeating such iterations is idempotent.  In the original sketch (whose
loop performs no counter reset) the comparator-true sensing step is the
identity when the buzzer is already on, and idempotent. -/
theorem continuity_idempotent :
    (∀ s : V11.State, s.ocie0b = true →
      V11.loopIter true s = { s with tmillis := 0 } ∧
      V11.loopIter true (V11.loopIter true s) = V11.loopIter true s) ∧
    (∀ s : V10.State, s.ocie0b = true →
      V10.loopIter true s = { s with t_in_50millis := 0, t50millis := 0 } ∧
      V10.loopIter true (V10.loopIter true s) = V10.loopIter true s) ∧
    (∀ s : V0.State, s.ocie0b = true →
      V0.sense true s = s ∧
      V0.sense true (V0.sense true s) = V0.sense true s) := by
  refine ⟨?_, ?_, ?_⟩
  · intro s hB
    constructor
    · rw [v11_loopIter_true]
      obtain ⟨tm, oa, ob, bz, ld, rp, pp, pc, sl, oca, ocb⟩ := s
      simp_all
    · simp only [v11_loopIter_true]
  · intro s hB
    constructor
    · rw [v10_loopIter_true]
      obtain ⟨ti, t5, oa, ob, bz, ld, rp, pp, pc, sl, oca, ocb⟩ := s
      simp_all
    · simp only [v10_loopIter_true]
  · intro s hB
    constructor
    · show { s with ocie0b := true } = s
      obtain ⟨tm, oa, ob, bz, ld, rp, pp, pc, sl, oca, ocb⟩ := s
      simp_all
    · rfl

/-- Witness for C9 at a concrete v1.1 state with the buzzer already
enabled. -/
theorem continuity_idempotent_witness :
    (V11.State.mk 7 true true true true true true false false
        127 63).ocie0b = true ∧
    V11.loopIter true (V11.State.mk 7 true true true true true true
        false false 127 63) =
      { V11.State.mk 7 true true true true true true false false
          127 63 with tmillis := 0 } ∧
    V11.loopIter true (V11.loopIter true (V11.State.mk 7 true true true
        true true true false false 127 63)) =
      V11.loopIter true (V11.State.mk 7 true true true true true true
        false false 127 63) :=
  ⟨rfl,
    (continuity_idempotent.1
      (V11.State.mk 7 true true true true true true false false 127 63)
      rfl).1,
    (continuity_idempotent.1
      (V11.State.mk 7 true true true true true true false false 127 63)
      rfl).2⟩

/-- C10 counterexample: 12800 ticks after a reset (256 nominal 50 ms
units) the 8-bit `t50millis` has wrapped back to 0, so it has not
advanced by one per 50 ticks since the reset. -/
theorem t50_wrap_counterexample :
    (V10.run V10.init (List.replicate 12800 Event.tickA)).t50millis = 0 ∧
    12800 / 50 = 256 ∧
    ¬ (V10.run V10.init
        (List.replicate 12800 Event.tickA)).t50millis = 12800 / 50 := by
  have h := (v10_run_ticks 12800 V10.init rfl rfl (by decide) (by decide)).2
  refine ⟨by rw [h]; decide, by decide, by rw [h]; decide⟩

/-- C10 (amended): the v1.0 sub-counter `t_in_50millis` stays strictly
below 50 across every transition taken outside the compare-match A
handler (and initially), and from a reset state `n` ticks leave
`t50millis = (n / 50) % 256` and `t_in_50millis = n % 50` — one
advance of the 50 ms counter per 50 ticks, modulo its 8-bit width. -/
theorem t50_invariant_and_advance :
    (∀ (s : V10.State) (e : Event), s.t_in_50millis < 50 →
      (V10.step s e).t_in_50millis < 50) ∧
    V10.init.t_in_50millis < 50 ∧
    (∀ (n : Nat) (s : V10.State),
      s.asleep = false → s.ocie0a = true →
      s.t_in_50millis = 0 → s.t50millis = 0 →
      (V10.run s (List.replicate n Event.tickA)).t50millis =
        (n / 50) % 256 ∧
      (V10.run s (List.replicate n Event.tickA)).t_in_50millis =
        n % 50) := by
  refine ⟨?_, by decide, ?_⟩
  · intro s e h
    cases e with
    | poll aco =>
      simp only [V10.step, V10.loopIter, V10.sleepCheck, V10.sleepEnter,
        V10.sense]
      split_ifs <;> simp_all
    | tickA =>
      simp only [V10.step, V10.isrCOMPA]
      split_ifs <;> simp_all
      omega
    | tickB =>
      simp only [V10.step, V10.isrCOMPB]
      split_ifs <;> simp_all
    | pcint =>
      simp only [V10.step, V10.wakeResume, V10.isrPCINT0]
      split_ifs <;> simp_all
  · intro n s hA hO h3 h4
    obtain ⟨h1, h2⟩ := v10_run_ticks n s hA hO (by omega) (by omega)
    rw [h1, h2, h3, h4]
    constructor
    · omega
    · omega

/-- Witness for C10's closed form at the initial (reset) state after 123
ticks. -/
theorem t50_invariant_and_advance_witness :
    V10.init.asleep = false ∧ V10.init.ocie0a = true ∧
    V10.init.t_in_50millis = 0 ∧ V10.init.t50millis = 0 ∧
    (V10.run V10.init (List.replicate 123 Event.tickA)).t50millis =
      (123 / 50) % 256 ∧
    (V10.run V10.init (List.replicate 123 Event.tickA)).t_in_50millis =
      123 % 50 :=
  ⟨rfl, rfl, rfl, rfl,
    (t50_invariant_and_advance.2.2 123 V10.init rfl rfl rfl rfl).1,
    (t50_invariant_and_advance.2.2 123 V10.init rfl rfl rfl rfl).2⟩
